import Mathlib

/-!
Shallow embedding of the Data Redundancy Removal System
(`src/database.py`, `src/services.py`, `src/main.py`).

Modelling conventions:
* Byte payloads are `List Nat` (each element a byte value).
* The BLAKE3 digest (`blake3.blake3(content).hexdigest()`) and libmagic
  (`magic.Magic(mime=True).from_buffer`) are external libraries; they enter the
  embedding as explicit function parameters `ghash : List Nat → List Nat` and
  `detect : List Nat → String`.  Collision resistance of BLAKE3 is idealised,
  where a claim needs it, as an inequality hypothesis on `ghash`.
* Python's `json` module is modelled executable below (`jsonLoads`,
  `jsonDumpsIndent2`): null / booleans / integers / floats / strings /
  arrays / objects, with the number grammar of `json.decoder.NUMBER_RE` and
  the constants `NaN` / `Infinity` / `-Infinity`.  A float is carried as its
  lexed token; the IEEE-754 text `json.dumps` prints for it
  (`floatstr(float(token))`, e.g. `"1.50" ↦ "1.5"`) is a pure function of
  the token and enters as the explicit parameter `frepr : String → String`,
  double arithmetic being outside the shallow embedding.  Lone-surrogate
  `\\u` escapes in strings are outside the modelled fragment.
* The database session is a `Store` value threaded explicitly; the unique
  constraint on `content_hash` declared in `src/database.py` is enforced by
  the `insert_commit` primitive, which models `db.add` + `db.commit`.
* The listing query of `src/main.py` has no ORDER BY; `list_entries_rows`
  models the row order of the SQLite access paths chosen for this schema
  (the composite index `idx_content_type_verified`, the `is_verified` index,
  or a full table scan).
-/

/-! ### UTF-8 decoding (`bytes.decode("utf-8")`, strict errors) -/

/-- One pass of the strict UTF-8 decoder: `fuel` bounds the number of decoded
code points (one byte at least is consumed per step, so `bs.length` is always
enough fuel).  Mirrors CPython's strict decoder: continuation bytes must be in
`[0x80, 0xC0)`, overlong encodings, surrogates (`U+D800`–`U+DFFF`) and code
points above `U+10FFFF` are rejected. -/
def utf8DecodeLoop : Nat → List Nat → Option (List Char)
  | _, [] => some []
  | 0, _ :: _ => none
  | fuel + 1, b1 :: rest =>
    if b1 < 0x80 then
      (utf8DecodeLoop fuel rest).map (fun cs => Char.ofNat b1 :: cs)
    else if b1 < 0xC2 then none
    else if b1 < 0xE0 then
      match rest with
      | b2 :: rest2 =>
        if 0x80 ≤ b2 ∧ b2 < 0xC0 then
          (utf8DecodeLoop fuel rest2).map
            (fun cs => Char.ofNat ((b1 - 0xC0) * 0x40 + (b2 - 0x80)) :: cs)
        else none
      | _ => none
    else if b1 < 0xF0 then
      match rest with
      | b2 :: b3 :: rest2 =>
        let lo2 : Nat := if b1 = 0xE0 then 0xA0 else 0x80
        let hi2 : Nat := if b1 = 0xED then 0xA0 else 0xC0
        if lo2 ≤ b2 ∧ b2 < hi2 ∧ 0x80 ≤ b3 ∧ b3 < 0xC0 then
          (utf8DecodeLoop fuel rest2).map
            (fun cs =>
              Char.ofNat ((b1 - 0xE0) * 0x1000 + (b2 - 0x80) * 0x40 + (b3 - 0x80)) :: cs)
        else none
      | _ => none
    else if b1 < 0xF5 then
      match rest with
      | b2 :: b3 :: b4 :: rest2 =>
        let lo2 : Nat := if b1 = 0xF0 then 0x90 else 0x80
        let hi2 : Nat := if b1 = 0xF4 then 0x90 else 0xC0
        if lo2 ≤ b2 ∧ b2 < hi2 ∧ 0x80 ≤ b3 ∧ b3 < 0xC0 ∧ 0x80 ≤ b4 ∧ b4 < 0xC0 then
          (utf8DecodeLoop fuel rest2).map
            (fun cs =>
              Char.ofNat ((b1 - 0xF0) * 0x40000 + (b2 - 0x80) * 0x1000 +
                (b3 - 0x80) * 0x40 + (b4 - 0x80)) :: cs)
        else none
      | _ => none
    else none

/-- Strict UTF-8 decoding of a byte list, `some` of the decoded text on
success, `none` where Python raises `UnicodeDecodeError`. -/
def utf8Decode (bs : List Nat) : Option String :=
  (utf8DecodeLoop bs.length bs).map String.mk

/-! ### base64 (`base64.b64encode(content).decode("utf-8")`) -/

/-- Character of the standard base64 alphabet at index `n < 64`. -/
def b64char (n : Nat) : Char :=
  if n < 26 then Char.ofNat (65 + n)
  else if n < 52 then Char.ofNat (97 + (n - 26))
  else if n < 62 then Char.ofNat (48 + (n - 52))
  else if n = 62 then '+'
  else '/'

/-- Standard base64 encoding of a byte list, with `=` padding. -/
def b64encodeList : List Nat → List Char
  | [] => []
  | [a] => [b64char (a / 4), b64char (a % 4 * 16), '=', '=']
  | [a, b] => [b64char (a / 4), b64char (a % 4 * 16 + b / 16), b64char (b % 16 * 4), '=']
  | a :: b :: c :: rest =>
    b64char (a / 4) :: b64char (a % 4 * 16 + b / 16) ::
      b64char (b % 16 * 4 + c / 64) :: b64char (c % 64) :: b64encodeList rest

/-- base64 encoding as a string. -/
def b64encode (bs : List Nat) : String := String.mk (b64encodeList bs)

/-! ### JSON values (model of Python's `json` module) -/

/-- JSON values as produced by `json.loads`: objects are association lists in
key-insertion order (Python `dict` semantics).  A number token with a
fraction or exponent part, and the constants `NaN` / `Infinity` /
`-Infinity`, become Python floats (`parse_float(tok) = float(tok)`); the
float is carried as its lexed token `jfloat tok`, and the IEEE-754 text
`json.dumps` prints for it enters the model as the oracle parameter `frepr`
(see `dumpsV`). -/
inductive J where
  | jnull
  | jbool (b : Bool)
  | jint (n : Int)
  | jfloat (tok : String)
  | jstr (s : String)
  | jarr (xs : List J)
  | jobj (kvs : List (String × J))
deriving Repr, Inhabited

/-- Insertion into an association list with Python `dict` semantics: an
existing key keeps its position and receives the new value, a new key is
appended. -/
def objInsert : List (String × J) → String → J → List (String × J)
  | [], k, v => [(k, v)]
  | (k0, v0) :: rest, k, v =>
    if k0 = k then (k0, v) :: rest else (k0, v0) :: objInsert rest k v

/-- JSON insignificant whitespace (`json.decoder.WHITESPACE`). -/
def isJsonWs (c : Char) : Bool :=
  c = ' ' ∨ c = '\t' ∨ c = '\n' ∨ c = '\r'

/-- Drop leading JSON whitespace. -/
def skipWs : List Char → List Char
  | [] => []
  | c :: rest => if isJsonWs c then skipWs rest else c :: rest

/-- Value of a hexadecimal digit character. -/
def hexVal? (c : Char) : Option Nat :=
  if '0' ≤ c ∧ c ≤ '9' then some (c.toNat - 48)
  else if 'a' ≤ c ∧ c ≤ 'f' then some (c.toNat - 87)
  else if 'A' ≤ c ∧ c ≤ 'F' then some (c.toNat - 55)
  else none

/-- Four hexadecimal digits, as in a `\uXXXX` escape. -/
def parseHex4 : List Char → Option (Nat × List Char)
  | h1 :: h2 :: h3 :: h4 :: rest =>
    match hexVal? h1, hexVal? h2, hexVal? h3, hexVal? h4 with
    | some a, some b, some c, some d => some (a * 4096 + b * 256 + c * 16 + d, rest)
    | _, _, _, _ => none
  | _ => none

/-- Single-character JSON string escapes. -/
def escSimple? (c : Char) : Option Char :=
  if c = '"' then some '"'
  else if c = '\\' then some '\\'
  else if c = '/' then some '/'
  else if c = 'b' then some (Char.ofNat 8)
  else if c = 'f' then some (Char.ofNat 12)
  else if c = 'n' then some '\n'
  else if c = 'r' then some '\r'
  else if c = 't' then some '\t'
  else none

/-- Body of a JSON string after the opening quote (strict mode: raw control
characters are rejected).  Returns the decoded characters and the input after
the closing quote.  `\uXXXX` surrogate pairs are combined; a lone surrogate
escape is outside the modelled fragment. -/
def parseStringBody : Nat → List Char → Option (List Char × List Char)
  | 0, _ => none
  | _, [] => none
  | fuel + 1, c :: rest =>
    if c = '"' then some ([], rest)
    else if c = '\\' then
      match rest with
      | [] => none
      | e :: rest2 =>
        if e = 'u' then
          match parseHex4 rest2 with
          | none => none
          | some (n, rest3) =>
            if 0xD800 ≤ n ∧ n ≤ 0xDBFF then
              match rest3 with
              | '\\' :: 'u' :: more =>
                match parseHex4 more with
                | some (m, rest4) =>
                  if 0xDC00 ≤ m ∧ m ≤ 0xDFFF then
                    (parseStringBody fuel rest4).map
                      (fun p =>
                        (Char.ofNat (0x10000 + (n - 0xD800) * 0x400 + (m - 0xDC00)) :: p.1,
                         p.2))
                  else none
                | none => none
              | _ => none
            else if 0xDC00 ≤ n ∧ n ≤ 0xDFFF then none
            else (parseStringBody fuel rest3).map (fun p => (Char.ofNat n :: p.1, p.2))
        else
          match escSimple? e with
          | some c2 => (parseStringBody fuel rest2).map (fun p => (c2 :: p.1, p.2))
          | none => none
    else if c.toNat < 0x20 then none
    else (parseStringBody fuel rest).map (fun p => (c :: p.1, p.2))

/-- Longest leading run of decimal digits. -/
def digitsSpan : List Char → List Char × List Char
  | [] => ([], [])
  | c :: rest =>
    if c.isDigit then
      let p := digitsSpan rest
      (c :: p.1, p.2)
    else ([], c :: rest)

/-- Decimal value of a digit list. -/
def digitsToNat (ds : List Char) : Nat :=
  ds.foldl (fun acc c => acc * 10 + (c.toNat - 48)) 0

/-- JSON number token, per `json.decoder.NUMBER_RE`:
`(-?(0|[1-9]\d*))(\.\d+)?([eE][-+]?\d+)?`.  An integer-only match yields
`jint` (Python `int`); a match with a fraction or exponent part is a Python
float, carried as `jfloat` of the matched token.  Per the regex, an integer
part starting with `0` is just `0`, a `.` not followed by a digit is not a
fraction, and an `e`/`E` without following digits is not an exponent — the
unconsumed characters stay in the remainder, where the surrounding grammar
deals with them exactly as Python's scanner does. -/
def parseNumTok (cs : List Char) : Option (J × List Char) :=
  let p : Bool × List Char :=
    match cs with
    | '-' :: rest => (true, rest)
    | _ => (false, cs)
  match digitsSpan p.2 with
  | ([], _) => none
  | (ds, rest0) =>
    let q : List Char × List Char :=
      match ds with
      | '0' :: d2 :: drest => (['0'], d2 :: (drest ++ rest0))
      | _ => (ds, rest0)
    let fr : List Char × List Char :=
      match q.2 with
      | '.' :: c :: rest1 =>
        if c.isDigit then
          let d := digitsSpan (c :: rest1)
          ('.' :: d.1, d.2)
        else ([], q.2)
      | _ => ([], q.2)
    let ex : List Char × List Char :=
      match fr.2 with
      | e :: rest2 =>
        if e = 'e' ∨ e = 'E' then
          match rest2 with
          | s :: c :: rest3 =>
            if (s = '+' ∨ s = '-') ∧ c.isDigit then
              let d := digitsSpan (c :: rest3)
              (e :: s :: d.1, d.2)
            else if s.isDigit then
              let d := digitsSpan (s :: c :: rest3)
              (e :: d.1, d.2)
            else ([], fr.2)
          | [s] =>
            if s.isDigit then ([e, s], [])
            else ([], fr.2)
          | [] => ([], fr.2)
        else ([], fr.2)
      | [] => ([], fr.2)
    if fr.1 = [] ∧ ex.1 = [] then
      some (.jint (if p.1 then -(digitsToNat q.1 : Int) else (digitsToNat q.1 : Int)),
        q.2)
    else
      some (.jfloat (String.mk ((if p.1 then ['-'] else []) ++ q.1 ++ fr.1 ++ ex.1)),
        ex.2)

mutual

/-- JSON value scanner (`json.scanner`): skips leading whitespace, then
dispatches on the first character. -/
def parseVal (fuel : Nat) (cs : List Char) : Option (J × List Char) :=
  match fuel with
  | 0 => none
  | fuel + 1 =>
    match skipWs cs with
    | [] => none
    | c :: rest =>
      if c = '{' then
        match skipWs rest with
        | '}' :: rest2 => some (.jobj [], rest2)
        | cs2 => parseObjMembers fuel cs2 []
      else if c = '[' then
        match skipWs rest with
        | ']' :: rest2 => some (.jarr [], rest2)
        | cs2 => parseArrItems fuel cs2 []
      else if c = '"' then
        match parseStringBody (rest.length + 1) rest with
        | some (body, rest2) => some (.jstr (String.mk body), rest2)
        | none => none
      else if c = 't' then
        match rest with
        | 'r' :: 'u' :: 'e' :: rest2 => some (.jbool true, rest2)
        | _ => none
      else if c = 'f' then
        match rest with
        | 'a' :: 'l' :: 's' :: 'e' :: rest2 => some (.jbool false, rest2)
        | _ => none
      else if c = 'n' then
        match rest with
        | 'u' :: 'l' :: 'l' :: rest2 => some (.jnull, rest2)
        | _ => none
      else if c = 'N' then
        match rest with
        | 'a' :: 'N' :: rest2 => some (.jfloat "NaN", rest2)
        | _ => none
      else if c = 'I' then
        match rest with
        | 'n' :: 'f' :: 'i' :: 'n' :: 'i' :: 't' :: 'y' :: rest2 =>
          some (.jfloat "Infinity", rest2)
        | _ => none
      else if c = '-' then
        match parseNumTok (c :: rest) with
        | some r => some r
        | none =>
          match rest with
          | 'I' :: 'n' :: 'f' :: 'i' :: 'n' :: 'i' :: 't' :: 'y' :: rest2 =>
            some (.jfloat "-Infinity", rest2)
          | _ => none
      else if c.isDigit then
        parseNumTok (c :: rest)
      else none

/-- Members of a JSON object after the opening brace (first member, or after a
comma): a quoted key, optional whitespace, `:`, a value, then `,` or `}`. -/
def parseObjMembers (fuel : Nat) (cs : List Char) (acc : List (String × J)) :
    Option (J × List Char) :=
  match fuel with
  | 0 => none
  | fuel + 1 =>
    match cs with
    | '"' :: rest =>
      match parseStringBody (rest.length + 1) rest with
      | none => none
      | some (kbody, rest2) =>
        match skipWs rest2 with
        | ':' :: rest3 =>
          match parseVal fuel rest3 with
          | none => none
          | some (v, rest4) =>
            match skipWs rest4 with
            | ',' :: rest5 => parseObjMembers fuel (skipWs rest5) (objInsert acc (String.mk kbody) v)
            | '}' :: rest5 => some (.jobj (objInsert acc (String.mk kbody) v), rest5)
            | _ => none
        | _ => none
    | _ => none

/-- Items of a JSON array after the opening bracket (first item, or after a
comma). -/
def parseArrItems (fuel : Nat) (cs : List Char) (acc : List J) :
    Option (J × List Char) :=
  match fuel with
  | 0 => none
  | fuel + 1 =>
    match parseVal fuel cs with
    | none => none
    | some (v, rest) =>
      match skipWs rest with
      | ',' :: rest2 => parseArrItems fuel rest2 (acc ++ [v])
      | ']' :: rest2 => some (.jarr (acc ++ [v]), rest2)
      | _ => none

end

/-- Model of `json.loads`: parse one value, then require only whitespace to
remain (otherwise Python raises `Extra data`). -/
def jsonLoads (s : String) : Option J :=
  match parseVal (2 * s.data.length + 2) s.data with
  | some (v, rest) => if skipWs rest = [] then some v else none
  | none => none

/-! ### Pretty printing (`json.dumps(v, indent=2, ensure_ascii=False)`) -/

/-- Hexadecimal digit character, lowercase (as in Python's `\uXXXX` output). -/
def hexDigitLower (n : Nat) : Char :=
  if n < 10 then Char.ofNat (48 + n) else Char.ofNat (87 + n)

/-- Four lowercase hexadecimal digits. -/
def hex4Lower (n : Nat) : String :=
  String.mk [hexDigitLower (n / 4096 % 16), hexDigitLower (n / 256 % 16),
    hexDigitLower (n / 16 % 16), hexDigitLower (n % 16)]

/-- JSON escaping of one character with `ensure_ascii=False`: only `"`, `\`
and control characters are escaped, everything else (non-ASCII included) is
emitted verbatim. -/
def escChar (c : Char) : String :=
  if c = '"' then "\\\""
  else if c = '\\' then "\\\\"
  else if c = '\n' then "\\n"
  else if c = '\r' then "\\r"
  else if c = '\t' then "\\t"
  else if c.toNat = 8 then "\\b"
  else if c.toNat = 12 then "\\f"
  else if c.toNat < 0x20 then "\\u" ++ hex4Lower c.toNat
  else String.singleton c

/-- JSON string literal for `s` under `ensure_ascii=False`. -/
def quoteStr (s : String) : String :=
  "\"" ++ String.join (s.data.map escChar) ++ "\""

/-- `n` spaces. -/
def indStr (n : Nat) : String := String.mk (List.replicate n ' ')

mutual

/-- `json.dumps` with `indent=2`, `ensure_ascii=False`: `lvl` is the current
indentation width in spaces.  Empty containers print without a newline;
non-empty containers put each element on its own line, indented two spaces
deeper, with separators `",\n"` and `": "`.  For a float, CPython's encoder
prints `floatstr(o)`: `NaN` / `Infinity` / `-Infinity` for non-finite values
and `repr(o)` otherwise; composed with `parse_float` this is a pure function
of the lexed token, which enters the model as the oracle parameter
`frepr : String → String` (IEEE-754 double semantics stay outside the
embedding; e.g. the real oracle has `frepr "1.50" = "1.5"`,
`frepr "1e3" = "1000.0"`, `frepr "NaN" = "NaN"`). -/
def dumpsV (frepr : String → String) : Nat → J → String
  | _, .jnull => "null"
  | _, .jbool true => "true"
  | _, .jbool false => "false"
  | _, .jint n => toString n
  | _, .jfloat tok => frepr tok
  | _, .jstr s => quoteStr s
  | lvl, .jarr xs =>
    match xs with
    | [] => "[]"
    | _ => "[\n" ++ dumpsArr frepr (lvl + 2) xs ++ "\n" ++ indStr lvl ++ "]"
  | lvl, .jobj kvs =>
    match kvs with
    | [] => "\x7b\x7d"
    | _ => "\x7b\n" ++ dumpsObj frepr (lvl + 2) kvs ++ "\n" ++ indStr lvl ++ "\x7d"

/-- Array items, one per line at indentation `lvl`, separated by `",\n"`. -/
def dumpsArr (frepr : String → String) : Nat → List J → String
  | _, [] => ""
  | lvl, [v] => indStr lvl ++ dumpsV frepr lvl v
  | lvl, v :: tl => indStr lvl ++ dumpsV frepr lvl v ++ ",\n" ++ dumpsArr frepr lvl tl

/-- Object members, one per line at indentation `lvl`, `key: value` with
separator `": "`, separated by `",\n"`. -/
def dumpsObj (frepr : String → String) : Nat → List (String × J) → String
  | _, [] => ""
  | lvl, [kv] => indStr lvl ++ quoteStr kv.1 ++ ": " ++ dumpsV frepr lvl kv.2
  | lvl, kv :: tl =>
    indStr lvl ++ quoteStr kv.1 ++ ": " ++ dumpsV frepr lvl kv.2 ++ ",\n" ++
      dumpsObj frepr lvl tl

end

/-- Model of `json.dumps(json_content, indent=2, ensure_ascii=False)`,
parametrised by the float-printing oracle. -/
def jsonDumpsIndent2 (frepr : String → String) (v : J) : String := dumpsV frepr 0 v

/-! ### Normalization (`src/services.py`, lines 85–97) -/

/-- The storage-representation policy of `create_data_entry`: decode the raw
bytes as UTF-8; on success try `json.loads` and store the pretty-printed
re-serialization, else store the decoded text as-is; if UTF-8 decoding fails,
store the base64 encoding of the raw bytes. -/
def normalize_content (frepr : String → String) (content : List Nat) : String :=
  match utf8Decode content with
  | some content_str =>
    match jsonLoads content_str with
    | some json_content => jsonDumpsIndent2 frepr json_content
    | none => content_str
  | none => b64encode content

example : normalize_content (fun s => s) [123, 34, 97, 34, 58, 49, 125] =
    "\x7b\n  \"a\": 1\n\x7d" := by decide
example : normalize_content (fun s => s) [104, 101, 108, 108, 111] = "hello" := by decide
example : normalize_content (fun s => s) [0, 1, 255] = "AAH/" := by decide
example : utf8Decode [0xE2, 0x82, 0xAC] = some "€" := by decide
example : utf8Decode [0xC0, 0x80] = none := by decide
example : jsonLoads "[1, 2]" = some (.jarr [.jint 1, .jint 2]) := by rfl
example : jsonLoads "1.50" = some (.jfloat "1.50") := by rfl
example : jsonLoads "1e3" = some (.jfloat "1e3") := by rfl
example : jsonLoads "-1.5e-3" = some (.jfloat "-1.5e-3") := by rfl
example : jsonLoads "[NaN, Infinity, -Infinity]" =
    some (.jarr [.jfloat "NaN", .jfloat "Infinity", .jfloat "-Infinity"]) := by rfl
example : jsonLoads "1." = none := by rfl
example : jsonLoads "1e+" = none := by rfl
example : normalize_content (fun _ => "1.5") [49, 46, 53, 48] = "1.5" := by decide

/-! ### Data model (`src/database.py`) -/

/-- Storage-layer failure on commit.  `integrityError` models SQLAlchemy's
`IntegrityError`, raised when the unique constraint on `content_hash`
(`Column(String(128), unique=True, ...)`) rejects an insert. -/
inductive DBErr where
  | integrityError
deriving Repr, DecidableEq

/-- A row of the `data_entries` table.  Timestamp columns are omitted (no
claim mentions them); `metadata` is accepted by the service functions but has
no column, exactly as in the source. -/
structure DataEntry where
  id : Nat
  content_hash : List Nat
  content : String
  content_type : Option String
  is_verified : Bool
  source : Option String
  confidence_score : Int
deriving Repr, DecidableEq

/-- The persisted table plus the autoincrement counter for the integer
primary key. -/
structure Store where
  entries : List DataEntry
  nextId : Nat
deriving Repr, DecidableEq

/-- A freshly initialised database. -/
def Store.empty : Store := ⟨[], 1⟩

/-- Caller-supplied metadata dictionary (unused by the service layer, as in
the source). -/
def Metadata := List (String × String)

/-! ### Service layer (`src/services.py`) -/

/-- `db.query(DataEntry).filter(DataEntry.content_hash == h).first()`:
first row whose `content_hash` equals `h`, in table order. -/
def query_first_hash (db : Store) (h : List Nat) : Option DataEntry :=
  db.entries.find? (fun e => e.content_hash == h)

/-- `DataValidator.generate_hash`: the BLAKE3 digest of the content, supplied
as the external parameter `ghash`. -/
def generate_hash (ghash : List Nat → List Nat) (content : List Nat) : List Nat :=
  ghash content

/-- `DataValidator.detect_content_type`: libmagic MIME sniffing, supplied as
the external parameter `detect`. -/
def detect_content_type (detect : List Nat → String) (content : List Nat) : String :=
  detect content

/-- `DataValidator.validate_data` (src/services.py lines 28–60): compute the
content hash, look the hash up, and return `(is_duplicate, existing_entry,
content_hash)` together with the session state (returned unchanged: the
function only reads).  When no duplicate exists the source resolves a content
type into a local variable and then drops it; the dead computation is kept. -/
def validate_data (ghash : List Nat → List Nat) (detect : List Nat → String)
    (db : Store) (content : List Nat) (content_type : Option String)
    (source : Option String) (metadata : Option Metadata) :
    (Bool × Option DataEntry × List Nat) × Store :=
  let content_hash := generate_hash ghash content
  let existing_entry := query_first_hash db content_hash
  match existing_entry with
  | some e => ((true, some e, content_hash), db)
  | none =>
    let _resolved_type :=
      match content_type with
      | none => detect_content_type detect content
      | some t => t
    ((false, none, content_hash), db)

/-- `db.add(new_entry); db.commit(); db.refresh(new_entry)` against the
unique constraint on `content_hash`: the insert is rejected with an
`IntegrityError` when a row with the same hash is already persisted,
otherwise the row is appended with the next primary key. -/
def insert_commit (db : Store) (e : DataEntry) : Except DBErr (DataEntry × Store) :=
  if db.entries.any (fun e0 => e0.content_hash == e.content_hash) then
    .error .integrityError
  else
    let e2 := { e with id := db.nextId }
    .ok (e2, ⟨db.entries ++ [e2], db.nextId + 1⟩)

/-- The tail of `create_data_entry` after the duplicate check has returned
`is_duplicate = False` (src/services.py lines 80–112): resolve the content
type, normalize the content, clamp the confidence score, build the row and
commit it.  There is no exception handler around the commit: a storage-layer
rejection propagates. -/
def create_data_entry_insert (detect : List Nat → String)
    (frepr : String → String) (db : Store)
    (content : List Nat) (content_type : Option String) (source : Option String)
    (is_verified : Bool) (confidence_score : Int) (content_hash : List Nat) :
    Except DBErr (DataEntry × Store) :=
  let ct :=
    match content_type with
    | none => detect_content_type detect content
    | some t => t
  let content_str := normalize_content frepr content
  insert_commit db
    { id := 0
      content_hash := content_hash
      content := content_str
      content_type := some ct
      is_verified := is_verified
      source := source
      confidence_score := min (max confidence_score 0) 100 }

/-- `DataValidator.create_data_entry` (src/services.py lines 62–112): run the
duplicate check; if a duplicate entry was found return it unchanged, else
insert a new row. -/
def create_data_entry (ghash : List Nat → List Nat) (detect : List Nat → String)
    (frepr : String → String) (db : Store) (content : List Nat)
    (content_type : Option String)
    (source : Option String) (metadata : Option Metadata)
    (is_verified : Bool) (confidence_score : Int) :
    Except DBErr (DataEntry × Store) :=
  match validate_data ghash detect db content content_type source metadata with
  | ((is_duplicate, existing_entry, content_hash), db2) =>
    match is_duplicate, existing_entry with
    | true, some e => .ok (e, db2)
    | _, _ =>
      create_data_entry_insert detect frepr db2 content content_type source
        is_verified confidence_score content_hash

/-- Interleaving of two `create_data_entry` calls for the same payload:
caller A runs its duplicate check against `db`; caller B then runs its entire
`create_data_entry` to completion; caller A finally resumes with the part of
`create_data_entry` after its own check, against the store B committed to.
Both phases of A are exactly the pieces `create_data_entry` is composed of. -/
def create_data_entry_raced (ghash : List Nat → List Nat) (detect : List Nat → String)
    (frepr : String → String) (db : Store) (content : List Nat)
    (content_type : Option String)
    (source : Option String) (metadata : Option Metadata)
    (is_verified : Bool) (confidence_score : Int) :
    Except DBErr (DataEntry × Store) :=
  match validate_data ghash detect db content content_type source metadata with
  | ((is_duplicate, existing_entry, content_hash), db2) =>
    match is_duplicate, existing_entry with
    | true, some e => .ok (e, db2)
    | _, _ =>
      match create_data_entry ghash detect frepr db2 content content_type source
          metadata is_verified confidence_score with
      | .error er => .error er
      | .ok (_, db3) =>
        create_data_entry_insert detect frepr db3 content content_type source
          is_verified confidence_score content_hash

/-- `create_data_entry` called `n` times in sequence with the same arguments,
collecting the returned entries. -/
def create_data_entry_iter (ghash : List Nat → List Nat) (detect : List Nat → String)
    (frepr : String → String) (n : Nat) (db : Store) (content : List Nat)
    (content_type : Option String)
    (source : Option String) (metadata : Option Metadata)
    (is_verified : Bool) (confidence_score : Int) :
    Except DBErr (List DataEntry × Store) :=
  match n with
  | 0 => .ok ([], db)
  | n + 1 =>
    match create_data_entry ghash detect frepr db content content_type source
        metadata is_verified confidence_score with
    | .error er => .error er
    | .ok (e, db2) =>
      match create_data_entry_iter ghash detect frepr n db2 content content_type
          source metadata is_verified confidence_score with
      | .error er => .error er
      | .ok (es, db3) => .ok (e :: es, db3)

/-! ### Listing endpoint (`src/main.py`, lines 110–129) -/

/-- The row sequence `GET /api/entries` reads before pagination.  The query
(src/main.py lines 121–128) has no ORDER BY, so the order is the access
path’s, modelled from the SQLite plans for the repository’s exact DDL
(src/database.py): a truthy `content_type` filter is served by the composite
index `idx_content_type_verified (content_type, is_verified)` and the rows
arrive ordered by `(is_verified, id)` — all unverified rows first, each class
in id order; an `is_verified`-only filter is served by the single-column
index, which with the flag fixed is id order; with no filter the full table
scan yields rowid (insertion) order.  `content_type` is filtered only when
truthy (a non-empty string), `is_verified` only when not `None`, as in the
source. -/
def list_entries_rows (db : Store) (content_type : Option String)
    (verified : Option Bool) : List DataEntry :=
  match content_type with
  | some c =>
    if c = "" then
      match verified with
      | some b => db.entries.filter (fun e => e.is_verified == b)
      | none => db.entries
    else
      let q := db.entries.filter (fun e => e.content_type == some c)
      let q2 := q.filter (fun e => e.is_verified == false) ++
        q.filter (fun e => e.is_verified == true)
      match verified with
      | some b => q2.filter (fun e => e.is_verified == b)
      | none => q2
  | none =>
    match verified with
    | some b => db.entries.filter (fun e => e.is_verified == b)
    | none => db.entries

/-- `GET /api/entries`: the filtered row sequence with
`offset(skip).limit(limit)` applied. -/
def list_entries (db : Store) (skip limit : Nat) (content_type : Option String)
    (verified : Option Bool) : List DataEntry :=
  ((list_entries_rows db content_type verified).drop skip).take limit

/-! ### Store invariants -/

/-- Well-formedness of the persisted table: primary keys strictly increase in
table order, the unique constraint on `content_hash` holds, and every id is
below the autoincrement counter. -/
def Store.wf (db : Store) : Prop :=
  db.entries.Pairwise (fun a b => a.id < b.id) ∧
  db.entries.Pairwise (fun a b => a.content_hash ≠ b.content_hash) ∧
  ∀ e ∈ db.entries, e.id < db.nextId

instance (db : Store) : Decidable db.wf := by
  unfold Store.wf
  infer_instance

/-! ### Characterisation lemmas -/

/-- The row `create_data_entry` persists when the duplicate check finds
nothing (the record literal of src/services.py lines 99–107, with the primary
key the autoincrement counter assigns at commit). -/
def new_entry_row (ghash : List Nat → List Nat) (detect : List Nat → String)
    (frepr : String → String) (db : Store) (content : List Nat)
    (content_type : Option String)
    (source : Option String) (is_verified : Bool) (confidence_score : Int) :
    DataEntry :=
  { id := db.nextId
    content_hash := ghash content
    content := normalize_content frepr content
    content_type := some (match content_type with
      | none => detect content
      | some t => t)
    is_verified := is_verified
    source := source
    confidence_score := min (max confidence_score 0) 100 }

theorem query_first_hash_eq_none_iff (db : Store) (h : List Nat) :
    query_first_hash db h = none ↔ ∀ e ∈ db.entries, e.content_hash ≠ h := by
  simp [query_first_hash, List.find?_eq_none]

theorem query_first_hash_some (db : Store) (h : List Nat) (e : DataEntry)
    (hq : query_first_hash db h = some e) : e ∈ db.entries ∧ e.content_hash = h := by
  refine ⟨List.mem_of_find?_eq_some hq, ?_⟩
  have := List.find?_some hq
  simpa using this

theorem any_hash_eq_false (db : Store) (h : List Nat)
    (hq : query_first_hash db h = none) :
    db.entries.any (fun e0 => e0.content_hash == h) = false := by
  rw [query_first_hash_eq_none_iff] at hq
  simp only [List.any_eq_false]
  intro e he
  simpa using hq e he

theorem validate_data_of_found (ghash : List Nat → List Nat) (detect : List Nat → String)
    (db : Store) (content : List Nat) (content_type : Option String)
    (source : Option String) (metadata : Option Metadata) (e : DataEntry)
    (hq : query_first_hash db (ghash content) = some e) :
    validate_data ghash detect db content content_type source metadata =
      ((true, some e, ghash content), db) := by
  simp [validate_data, generate_hash, hq]

theorem validate_data_of_not_found (ghash : List Nat → List Nat) (detect : List Nat → String)
    (db : Store) (content : List Nat) (content_type : Option String)
    (source : Option String) (metadata : Option Metadata)
    (hq : query_first_hash db (ghash content) = none) :
    validate_data ghash detect db content content_type source metadata =
      ((false, none, ghash content), db) := by
  simp [validate_data, generate_hash, hq]

theorem create_data_entry_of_found (ghash : List Nat → List Nat) (detect : List Nat → String)
    (frepr : String → String)
    (db : Store) (content : List Nat) (content_type : Option String)
    (source : Option String) (metadata : Option Metadata)
    (is_verified : Bool) (confidence_score : Int) (e : DataEntry)
    (hq : query_first_hash db (ghash content) = some e) :
    create_data_entry ghash detect frepr db content content_type source metadata
      is_verified confidence_score = .ok (e, db) := by
  rw [create_data_entry, validate_data_of_found ghash detect db content content_type
    source metadata e hq]

theorem create_data_entry_of_not_found (ghash : List Nat → List Nat)
    (detect : List Nat → String) (frepr : String → String)
    (db : Store) (content : List Nat)
    (content_type : Option String) (source : Option String) (metadata : Option Metadata)
    (is_verified : Bool) (confidence_score : Int)
    (hq : query_first_hash db (ghash content) = none) :
    create_data_entry ghash detect frepr db content content_type source metadata
      is_verified confidence_score =
      .ok (new_entry_row ghash detect frepr db content content_type source
            is_verified confidence_score,
        ⟨db.entries ++ [new_entry_row ghash detect frepr db content content_type
            source is_verified confidence_score], db.nextId + 1⟩) := by
  rw [create_data_entry, validate_data_of_not_found ghash detect db content content_type
    source metadata hq]
  simp only [create_data_entry_insert, insert_commit, detect_content_type,
    any_hash_eq_false db (ghash content) hq, Bool.false_eq_true, if_false,
    new_entry_row]

@[simp] theorem new_entry_row_content_hash (ghash : List Nat → List Nat)
    (detect : List Nat → String) (frepr : String → String)
    (db : Store) (content : List Nat)
    (content_type : Option String) (source : Option String)
    (is_verified : Bool) (confidence_score : Int) :
    (new_entry_row ghash detect frepr db content content_type source is_verified
      confidence_score).content_hash = ghash content := rfl

@[simp] theorem new_entry_row_content (ghash : List Nat → List Nat)
    (detect : List Nat → String) (frepr : String → String)
    (db : Store) (content : List Nat)
    (content_type : Option String) (source : Option String)
    (is_verified : Bool) (confidence_score : Int) :
    (new_entry_row ghash detect frepr db content content_type source is_verified
      confidence_score).content = normalize_content frepr content := rfl

@[simp] theorem new_entry_row_confidence_score (ghash : List Nat → List Nat)
    (detect : List Nat → String) (frepr : String → String)
    (db : Store) (content : List Nat)
    (content_type : Option String) (source : Option String)
    (is_verified : Bool) (confidence_score : Int) :
    (new_entry_row ghash detect frepr db content content_type source is_verified
      confidence_score).confidence_score = min (max confidence_score 0) 100 := rfl

theorem query_first_hash_append_self (db : Store) (e : DataEntry) (m : Nat)
    (hq : query_first_hash db e.content_hash = none) :
    query_first_hash ⟨db.entries ++ [e], m⟩ e.content_hash = some e := by
  unfold query_first_hash at *
  rw [List.find?_append, hq, Option.none_or]
  simp

theorem create_data_entry_iter_of_found (ghash : List Nat → List Nat)
    (detect : List Nat → String) (frepr : String → String)
    (n : Nat) (db : Store) (content : List Nat)
    (content_type : Option String) (source : Option String) (metadata : Option Metadata)
    (is_verified : Bool) (confidence_score : Int) (e : DataEntry)
    (hq : query_first_hash db (ghash content) = some e) :
    create_data_entry_iter ghash detect frepr n db content content_type source
      metadata is_verified confidence_score = .ok (List.replicate n e, db) := by
  induction n with
  | zero => simp [create_data_entry_iter]
  | succ n ih =>
    rw [create_data_entry_iter]
    simp only [create_data_entry_of_found ghash detect frepr db content
      content_type source metadata is_verified confidence_score e hq, ih]
    simp [List.replicate_succ]

/-- C1: the source's `create_data_entry` does NOT recover from a uniqueness
conflict.  In the interleaving where a concurrent writer persists the same
`contentHash` between the duplicate check and the commit, the storage layer's
`IntegrityError` propagates out of the operation instead of being resolved by
re-reading the now-existing entry.  This refutes the claimed recovery
behaviour on the code as written (src/services.py lines 99–113 have no
exception handler around `db.commit()`). -/
theorem C1_uniqueness_conflict_propagates (ghash : List Nat → List Nat)
    (detect : List Nat → String) (frepr : String → String) (db : Store)
    (content : List Nat)
    (content_type : Option String) (source : Option String) (metadata : Option Metadata)
    (is_verified : Bool) (confidence_score : Int)
    (hq : query_first_hash db (ghash content) = none) :
    create_data_entry_raced ghash detect frepr db content content_type source
      metadata is_verified confidence_score = .error .integrityError := by
  unfold create_data_entry_raced
  simp only [validate_data_of_not_found ghash detect db content content_type source
    metadata hq, create_data_entry_of_not_found ghash detect frepr db content
    content_type source metadata is_verified confidence_score hq]
  simp [create_data_entry_insert, insert_commit, List.any_append, new_entry_row]

/-- Witness for C1: concrete race on the payload `b"hi"` against an empty
table; the operation reports the storage error instead of the entry the
concurrent writer persisted. -/
theorem C1_witness :
    query_first_hash Store.empty ((fun l => l) [104, 105]) = none ∧
    create_data_entry_raced (fun l => l) (fun _ => "text/plain") (fun x => x)
      Store.empty
      [104, 105] none none none true 100 = .error .integrityError :=
  ⟨by decide,
   C1_uniqueness_conflict_propagates (fun l => l) (fun _ => "text/plain") (fun x => x)
     Store.empty
     [104, 105] none none none true 100 (by decide)⟩

/-- C2: sequential idempotence of submission.  From a store holding no entry
for `identity(b)`, `create_data_entry` called `n ≥ 1` times with the same
payload returns the same entry every time (`List.replicate`), persists
exactly one entry with that `contentHash`, and the store after all `n` calls
is the store after the first call. -/
theorem C2_idempotent_submission (ghash : List Nat → List Nat)
    (detect : List Nat → String) (frepr : String → String) (db : Store)
    (content : List Nat)
    (content_type : Option String) (source : Option String) (metadata : Option Metadata)
    (is_verified : Bool) (confidence_score : Int) (n : Nat)
    (hq : query_first_hash db (ghash content) = none) (hn : 1 ≤ n) :
    ∃ e db2,
      create_data_entry_iter ghash detect frepr n db content content_type source
        metadata is_verified confidence_score = .ok (List.replicate n e, db2) ∧
      e.content_hash = ghash content ∧
      db2.entries = db.entries ++ [e] ∧
      db2.entries.countP (fun x => x.content_hash == ghash content) = 1 := by
  obtain ⟨m, rfl⟩ : ∃ m, n = m + 1 := ⟨n - 1, by omega⟩
  refine ⟨new_entry_row ghash detect frepr db content content_type source is_verified
      confidence_score,
    ⟨db.entries ++ [new_entry_row ghash detect frepr db content content_type source
      is_verified confidence_score], db.nextId + 1⟩, ?_, rfl, rfl, ?_⟩
  · have hq2 : query_first_hash ⟨db.entries ++ [new_entry_row ghash detect frepr db content
        content_type source is_verified confidence_score], db.nextId + 1⟩
        (ghash content) =
        some (new_entry_row ghash detect frepr db content content_type source is_verified
          confidence_score) := by
      have := query_first_hash_append_self db
        (new_entry_row ghash detect frepr db content content_type source is_verified
          confidence_score) (db.nextId + 1) (by simpa using hq)
      simpa using this
    rw [create_data_entry_iter]
    simp only [create_data_entry_of_not_found ghash detect frepr db content
        content_type source metadata is_verified confidence_score hq,
      create_data_entry_iter_of_found ghash detect frepr m _ content content_type
        source metadata is_verified confidence_score _ hq2]
    simp [List.replicate_succ]
  · rw [List.countP_append]
    have h0 : db.entries.countP (fun x => x.content_hash == ghash content) = 0 := by
      rw [List.countP_eq_zero]
      intro a ha
      have := (query_first_hash_eq_none_iff db (ghash content)).mp hq a ha
      simpa using this
    rw [h0]
    simp [List.countP_cons]

/-- Witness for C2: three submissions of `b"hi"` to an empty store. -/
theorem C2_witness :
    query_first_hash Store.empty ((fun l => l) [104, 105]) = none ∧ 1 ≤ 3 ∧
    ∃ e db2,
      create_data_entry_iter (fun l => l) (fun _ => "text/plain") (fun x => x) 3
        Store.empty
        [104, 105] none none none true 100 = .ok (List.replicate 3 e, db2) ∧
      e.content_hash = (fun l => l) [104, 105] ∧
      db2.entries = Store.empty.entries ++ [e] ∧
      db2.entries.countP (fun x => x.content_hash == (fun l => l) [104, 105]) = 1 :=
  ⟨by decide, by decide,
   C2_idempotent_submission (fun l => l) (fun _ => "text/plain") (fun x => x)
     Store.empty
     [104, 105] none none none true 100 3 (by decide) (by decide)⟩

/-- C10: a duplicate-hitting call returns the stored entry itself, with every
field as persisted, and leaves the store untouched; the call's own hints and
flags do not influence the result at all. -/
theorem C10_duplicate_returns_stored_entry (ghash : List Nat → List Nat)
    (detect : List Nat → String) (frepr : String → String) (db : Store)
    (content : List Nat)
    (content_type : Option String) (source : Option String) (metadata : Option Metadata)
    (is_verified : Bool) (confidence_score : Int) (e : DataEntry)
    (hq : query_first_hash db (ghash content) = some e) :
    create_data_entry ghash detect frepr db content content_type source metadata
      is_verified confidence_score = .ok (e, db) ∧
    ∀ content_type2 source2 metadata2 is_verified2 confidence_score2,
      create_data_entry ghash detect frepr db content content_type2 source2 metadata2
        is_verified2 confidence_score2 =
      create_data_entry ghash detect frepr db content content_type source metadata
        is_verified confidence_score := by
  constructor
  · exact create_data_entry_of_found ghash detect frepr db content content_type source
      metadata is_verified confidence_score e hq
  · intro ct2 src2 md2 iv2 cs2
    rw [create_data_entry_of_found ghash detect frepr db content ct2 src2 md2 iv2 cs2 e hq,
      create_data_entry_of_found ghash detect frepr db content content_type source metadata
        is_verified confidence_score e hq]

/-- Witness for C10: a stored entry for the bytes `[1, 2]` is returned
unchanged by a resubmission carrying entirely different hints. -/
theorem C10_witness :
    query_first_hash ⟨[⟨1, [1, 2], "x", some "text/plain", true, none, 100⟩], 2⟩
        ((fun l => l) [1, 2]) =
      some ⟨1, [1, 2], "x", some "text/plain", true, none, 100⟩ ∧
    (create_data_entry (fun l => l) (fun _ => "text/plain") (fun x => x)
        ⟨[⟨1, [1, 2], "x", some "text/plain", true, none, 100⟩], 2⟩ [1, 2]
        (some "application/json") (some "other") none false 7 =
      .ok (⟨1, [1, 2], "x", some "text/plain", true, none, 100⟩,
        ⟨[⟨1, [1, 2], "x", some "text/plain", true, none, 100⟩], 2⟩) ∧
      ∀ content_type2 source2 metadata2 is_verified2 confidence_score2,
        create_data_entry (fun l => l) (fun _ => "text/plain") (fun x => x)
          ⟨[⟨1, [1, 2], "x", some "text/plain", true, none, 100⟩], 2⟩ [1, 2]
          content_type2 source2 metadata2 is_verified2 confidence_score2 =
        create_data_entry (fun l => l) (fun _ => "text/plain") (fun x => x)
          ⟨[⟨1, [1, 2], "x", some "text/plain", true, none, 100⟩], 2⟩ [1, 2]
          (some "application/json") (some "other") none false 7) :=
  ⟨by decide,
   C10_duplicate_returns_stored_entry (fun l => l) (fun _ => "text/plain") (fun x => x)
     ⟨[⟨1, [1, 2], "x", some "text/plain", true, none, 100⟩], 2⟩ [1, 2]
     (some "application/json") (some "other") none false 7
     ⟨1, [1, 2], "x", some "text/plain", true, none, 100⟩ (by decide)⟩

/-- C3: the persisted `contentHash` is the digest of the original raw bytes,
never of the normalized `content` field: the created row carries
`ghash content` (raw bytes) as its hash while its `content` column holds the
normalized representation. -/
theorem C3_hash_from_raw_bytes (ghash : List Nat → List Nat)
    (detect : List Nat → String) (frepr : String → String) (db : Store)
    (content : List Nat)
    (content_type : Option String) (source : Option String) (metadata : Option Metadata)
    (is_verified : Bool) (confidence_score : Int)
    (hq : query_first_hash db (ghash content) = none) :
    ∃ e db2,
      create_data_entry ghash detect frepr db content content_type source metadata
        is_verified confidence_score = .ok (e, db2) ∧
      e.content_hash = ghash content ∧
      e.content = normalize_content frepr content :=
  ⟨_, _, create_data_entry_of_not_found ghash detect frepr db content content_type
      source metadata is_verified confidence_score hq, rfl, rfl⟩

/-- Witness for C3: the raw bytes of the compact JSON text `\x7b"a":1\x7d`
normalize to a re-indented stored `content` that is no longer the raw text,
yet the persisted hash is the digest of the raw bytes. -/
theorem C3_witness :
    query_first_hash Store.empty ((fun l => l) [123, 34, 97, 34, 58, 49, 125]) = none ∧
    (∃ e db2,
      create_data_entry (fun l => l) (fun _ => "application/json") (fun x => x)
        Store.empty
        [123, 34, 97, 34, 58, 49, 125] none none none true 100 = .ok (e, db2) ∧
      e.content_hash = (fun l => l) [123, 34, 97, 34, 58, 49, 125] ∧
      e.content = normalize_content (fun x => x) [123, 34, 97, 34, 58, 49, 125]) ∧
    utf8Decode [123, 34, 97, 34, 58, 49, 125] = some "\x7b\"a\":1\x7d" ∧
    normalize_content (fun x => x) [123, 34, 97, 34, 58, 49, 125] =
      "\x7b\n  \"a\": 1\n\x7d" ∧
    normalize_content (fun x => x) [123, 34, 97, 34, 58, 49, 125] ≠
      "\x7b\"a\":1\x7d" :=
  ⟨by decide,
   C3_hash_from_raw_bytes (fun l => l) (fun _ => "application/json") (fun x => x)
     Store.empty
     [123, 34, 97, 34, 58, 49, 125] none none none true 100 (by decide),
   by decide, by decide, by decide⟩

/-- C4: the stored `content` follows the normalization policy exactly: a
UTF-8 payload that parses as JSON is stored pretty-printed (2-space indent,
non-ASCII unescaped), a UTF-8 payload that is not JSON is stored as the
decoded text, and a non-UTF-8 payload is stored base64-encoded; in every case
the operation succeeds. -/
theorem C4_normalization_policy (ghash : List Nat → List Nat)
    (detect : List Nat → String) (frepr : String → String) (db : Store)
    (content : List Nat)
    (content_type : Option String) (source : Option String) (metadata : Option Metadata)
    (is_verified : Bool) (confidence_score : Int)
    (hq : query_first_hash db (ghash content) = none) :
    ∃ e db2,
      create_data_entry ghash detect frepr db content content_type source metadata
        is_verified confidence_score = .ok (e, db2) ∧
      (∀ s, utf8Decode content = some s →
        (∀ v, jsonLoads s = some v → e.content = jsonDumpsIndent2 frepr v) ∧
        (jsonLoads s = none → e.content = s)) ∧
      (utf8Decode content = none → e.content = b64encode content) := by
  refine ⟨_, _, create_data_entry_of_not_found ghash detect frepr db content content_type
    source metadata is_verified confidence_score hq, ?_, ?_⟩
  · intro s hs
    refine ⟨fun v hv => ?_, fun hn => ?_⟩
    · simp [normalize_content, hs, hv]
    · simp [normalize_content, hs, hn]
  · intro hn
    simp [normalize_content, hn]

/-- Witness for C4: the binary payload `b"\x00\x01\xff"` fails UTF-8 decoding
and is stored as its base64 encoding. -/
theorem C4_witness :
    query_first_hash Store.empty ((fun l => l) [0, 1, 255]) = none ∧
    (∃ e db2,
      create_data_entry (fun l => l) (fun _ => "application/octet-stream") (fun x => x)
        Store.empty
        [0, 1, 255] none none none true 100 = .ok (e, db2) ∧
      (∀ s, utf8Decode [0, 1, 255] = some s →
        (∀ v, jsonLoads s = some v → e.content = jsonDumpsIndent2 (fun x => x) v) ∧
        (jsonLoads s = none → e.content = s)) ∧
      (utf8Decode [0, 1, 255] = none → e.content = b64encode [0, 1, 255])) ∧
    utf8Decode [0, 1, 255] = none ∧ b64encode [0, 1, 255] = "AAH/" :=
  ⟨by decide,
   C4_normalization_policy (fun l => l) (fun _ => "application/octet-stream")
     (fun x => x) Store.empty [0, 1, 255] none none none true 100 (by decide),
   by decide, by decide⟩

/-- C5: the persisted confidence score is the caller's value clamped into
`[0, 100]` — never an error: below 0 is stored as 0, above 100 as 100. -/
theorem C5_confidence_score_clamped (ghash : List Nat → List Nat)
    (detect : List Nat → String) (frepr : String → String) (db : Store)
    (content : List Nat)
    (content_type : Option String) (source : Option String) (metadata : Option Metadata)
    (is_verified : Bool) (confidence_score : Int)
    (hq : query_first_hash db (ghash content) = none) :
    ∃ e db2,
      create_data_entry ghash detect frepr db content content_type source metadata
        is_verified confidence_score = .ok (e, db2) ∧
      e.confidence_score = min (max confidence_score 0) 100 ∧
      0 ≤ e.confidence_score ∧ e.confidence_score ≤ 100 ∧
      (confidence_score < 0 → e.confidence_score = 0) ∧
      (100 < confidence_score → e.confidence_score = 100) := by
  refine ⟨_, _, create_data_entry_of_not_found ghash detect frepr db content content_type
    source metadata is_verified confidence_score hq, rfl, ?_, ?_, ?_, ?_⟩ <;>
    simp only [new_entry_row_confidence_score] <;> omega

/-- Witness for C5: `confidence_score = -5` persists as 0 and
`confidence_score = 500` persists as 100. -/
theorem C5_witness :
    query_first_hash Store.empty ((fun l => l) [104, 105]) = none ∧
    (∃ e db2,
      create_data_entry (fun l => l) (fun _ => "text/plain") (fun x => x)
        Store.empty [104, 105]
        none none none true (-5) = .ok (e, db2) ∧
      e.confidence_score = min (max (-5 : Int) 0) 100 ∧
      0 ≤ e.confidence_score ∧ e.confidence_score ≤ 100 ∧
      ((-5 : Int) < 0 → e.confidence_score = 0) ∧
      ((100 : Int) < -5 → e.confidence_score = 100)) ∧
    (∃ e db2,
      create_data_entry (fun l => l) (fun _ => "text/plain") (fun x => x)
        Store.empty [104, 105]
        none none none true 500 = .ok (e, db2) ∧
      e.confidence_score = min (max (500 : Int) 0) 100 ∧
      0 ≤ e.confidence_score ∧ e.confidence_score ≤ 100 ∧
      ((500 : Int) < 0 → e.confidence_score = 0) ∧
      ((100 : Int) < 500 → e.confidence_score = 100)) :=
  ⟨by decide,
   C5_confidence_score_clamped (fun l => l) (fun _ => "text/plain") (fun x => x)
     Store.empty [104, 105] none none none true (-5) (by decide),
   C5_confidence_score_clamped (fun l => l) (fun _ => "text/plain") (fun x => x)
     Store.empty [104, 105] none none none true 500 (by decide)⟩

/-- C6: the duplicate check is a pure read — it returns the session state
unchanged — and it reports a duplicate exactly when an entry with the
computed hash is persisted, returning that entry, and `(false, none)` with
the hash otherwise. -/
theorem C6_check_is_pure_read (ghash : List Nat → List Nat)
    (detect : List Nat → String) (db : Store) (content : List Nat)
    (content_type : Option String) (source : Option String) (metadata : Option Metadata) :
    (validate_data ghash detect db content content_type source metadata).2 = db ∧
    (validate_data ghash detect db content content_type source metadata).1.2.2 =
      ghash content ∧
    ((validate_data ghash detect db content content_type source metadata).1.1 = true ↔
      ∃ e ∈ db.entries, e.content_hash = ghash content) ∧
    ((validate_data ghash detect db content content_type source metadata).1.1 = true →
      ∃ e ∈ db.entries, e.content_hash = ghash content ∧
        (validate_data ghash detect db content content_type source metadata).1.2.1 =
          some e) ∧
    (∀ e, (validate_data ghash detect db content content_type source metadata).1.2.1 =
        some e → e ∈ db.entries ∧ e.content_hash = ghash content) ∧
    ((validate_data ghash detect db content content_type source metadata).1.1 = false →
      (validate_data ghash detect db content content_type source metadata).1.2.1 =
        none) := by
  cases hq : query_first_hash db (ghash content) with
  | none =>
    have hall := (query_first_hash_eq_none_iff db (ghash content)).mp hq
    simp only [validate_data_of_not_found ghash detect db content content_type source
      metadata hq]
    refine ⟨trivial, trivial, ?_, ?_, ?_, fun _ => trivial⟩
    · constructor
      · intro h
        simp at h
      · rintro ⟨e, he, hh⟩
        exact absurd hh (hall e he)
    · intro h
      simp at h
    · intro e he
      simp at he
  | some e =>
    obtain ⟨hmem, hh⟩ := query_first_hash_some db (ghash content) e hq
    simp only [validate_data_of_found ghash detect db content content_type source
      metadata e hq]
    refine ⟨trivial, trivial, ⟨fun _ => ⟨e, hmem, hh⟩, fun _ => trivial⟩,
      fun _ => ⟨e, hmem, hh, rfl⟩, ?_, ?_⟩
    · intro e2 he2
      injection he2 with h2
      subst h2
      exact ⟨hmem, hh⟩
    · intro hfalse
      simp at hfalse

/-- C7: the duplicate decision ignores caller hints — for the same payload
and store, any two choices of `content_type`, `source` and `metadata` yield
the same `(is_duplicate, existing_entry, content_hash)` triple (and the same
session state). -/
theorem C7_duplicate_decision_ignores_hints (ghash : List Nat → List Nat)
    (detect : List Nat → String) (db : Store) (content : List Nat)
    (ct1 ct2 : Option String) (src1 src2 : Option String)
    (md1 md2 : Option Metadata) :
    validate_data ghash detect db content ct1 src1 md1 =
    validate_data ghash detect db content ct2 src2 md2 := by
  cases hq : query_first_hash db (ghash content) with
  | none =>
    rw [validate_data_of_not_found ghash detect db content ct1 src1 md1 hq,
      validate_data_of_not_found ghash detect db content ct2 src2 md2 hq]
  | some e =>
    rw [validate_data_of_found ghash detect db content ct1 src1 md1 e hq,
      validate_data_of_found ghash detect db content ct2 src2 md2 e hq]

/-- The combined row predicate the filters of `list_entries` amount to: a
truthy `content_type` parameter must match the row's type, a non-`None`
`verified` parameter must match the row's flag. -/
def entry_matches (content_type : Option String) (verified : Option Bool)
    (e : DataEntry) : Bool :=
  (match content_type with
   | some c => if c = "" then true else e.content_type == some c
   | none => true) &&
  (match verified with
   | some b => e.is_verified == b
   | none => true)

theorem rows_none_none (db : Store) : list_entries_rows db none none = db.entries := rfl

theorem rows_none_some (db : Store) (b : Bool) :
    list_entries_rows db none (some b) =
    db.entries.filter (fun e => e.is_verified == b) := rfl

theorem rows_empty_none (db : Store) :
    list_entries_rows db (some "") none = db.entries := rfl

theorem rows_empty_some (db : Store) (b : Bool) :
    list_entries_rows db (some "") (some b) =
    db.entries.filter (fun e => e.is_verified == b) := rfl

theorem rows_typed_none (db : Store) (c : String) (hc : ¬ c = "") :
    list_entries_rows db (some c) none =
    (db.entries.filter (fun e => e.content_type == some c)).filter
      (fun e => e.is_verified == false) ++
    (db.entries.filter (fun e => e.content_type == some c)).filter
      (fun e => e.is_verified == true) := by
  simp [list_entries_rows, hc]

theorem rows_typed_some (db : Store) (c : String) (b : Bool) (hc : ¬ c = "") :
    list_entries_rows db (some c) (some b) =
    ((db.entries.filter (fun e => e.content_type == some c)).filter
      (fun e => e.is_verified == false) ++
    (db.entries.filter (fun e => e.content_type == some c)).filter
      (fun e => e.is_verified == true)).filter (fun e => e.is_verified == b) := by
  simp [list_entries_rows, hc]

/-- Filtering the `(is_verified, id)`-ordered sequence down to one
verification class gives the plain filtered list back. -/
theorem filter_verified_split (q : List DataEntry) (b : Bool) :
    (q.filter (fun e => e.is_verified == false) ++
      q.filter (fun e => e.is_verified == true)).filter
      (fun e => e.is_verified == b) =
    q.filter (fun e => e.is_verified == b) := by
  rw [List.filter_append, List.filter_filter, List.filter_filter]
  cases b with
  | false =>
    have h1 : (fun e : DataEntry => (e.is_verified == false) && (e.is_verified == false)) =
        fun e => e.is_verified == false := by
      funext e
      cases e.is_verified <;> rfl
    have h2 : (fun e : DataEntry => (e.is_verified == false) && (e.is_verified == true)) =
        fun _ => false := by
      funext e
      cases e.is_verified <;> rfl
    simp only [h1, h2]
    simp
  | true =>
    have h1 : (fun e : DataEntry => (e.is_verified == true) && (e.is_verified == false)) =
        fun _ => false := by
      funext e
      cases e.is_verified <;> rfl
    have h2 : (fun e : DataEntry => (e.is_verified == true) && (e.is_verified == true)) =
        fun e => e.is_verified == true := by
      funext e
      cases e.is_verified <;> rfl
    simp only [h1, h2]
    simp

theorem list_entries_rows_mem (db : Store) (content_type : Option String)
    (verified : Option Bool) (e : DataEntry)
    (he : e ∈ list_entries_rows db content_type verified) :
    e ∈ db.entries ∧ entry_matches content_type verified e = true := by
  cases content_type with
  | none =>
    cases verified with
    | none =>
      rw [rows_none_none] at he
      exact ⟨he, by simp [entry_matches]⟩
    | some b =>
      rw [rows_none_some] at he
      have h := List.mem_filter.mp he
      exact ⟨h.1, by simp [entry_matches, h.2]⟩
  | some c =>
    by_cases hc : c = ""
    · subst hc
      cases verified with
      | none =>
        rw [rows_empty_none] at he
        exact ⟨he, by simp [entry_matches]⟩
      | some b =>
        rw [rows_empty_some] at he
        have h := List.mem_filter.mp he
        exact ⟨h.1, by simp [entry_matches, h.2]⟩
    · cases verified with
      | none =>
        rw [rows_typed_none db c hc] at he
        rcases List.mem_append.mp he with h | h <;>
        · have h2 := List.mem_filter.mp h
          have h3 := List.mem_filter.mp h2.1
          exact ⟨h3.1, by simp [entry_matches, hc, h3.2]⟩
      | some b =>
        rw [rows_typed_some db c b hc, filter_verified_split] at he
        have h2 := List.mem_filter.mp he
        have h3 := List.mem_filter.mp h2.1
        exact ⟨h3.1, by simp [entry_matches, hc, h3.2, h2.2]⟩

theorem list_entries_rows_sublist (db : Store) (content_type : Option String)
    (verified : Option Bool)
    (hcond : content_type = none ∨ content_type = some "" ∨ ∃ b, verified = some b) :
    List.Sublist (list_entries_rows db content_type verified) db.entries := by
  rcases hcond with h | h | ⟨b, h⟩
  · subst h
    cases verified with
    | none =>
      rw [rows_none_none]
    | some b =>
      rw [rows_none_some]
      exact List.filter_sublist _
  · subst h
    cases verified with
    | none =>
      rw [rows_empty_none]
    | some b =>
      rw [rows_empty_some]
      exact List.filter_sublist _
  · subst h
    cases content_type with
    | none =>
      rw [rows_none_some]
      exact List.filter_sublist _
    | some c =>
      by_cases hc : c = ""
      · subst hc
        rw [rows_empty_some]
        exact List.filter_sublist _
      · rw [rows_typed_some db c b hc, filter_verified_split]
        exact (List.filter_sublist _).trans (List.filter_sublist _)

theorem list_entries_rows_pairwise_typed (db : Store) (c : String)
    (verified : Option Bool) (hc : ¬ c = "") (hwf : db.wf) :
    (list_entries_rows db (some c) verified).Pairwise (fun a b =>
      (a.is_verified = false ∧ b.is_verified = true) ∨
      (a.is_verified = b.is_verified ∧ a.id < b.id)) := by
  have happ : ((db.entries.filter (fun e => e.content_type == some c)).filter
      (fun e => e.is_verified == false) ++
      (db.entries.filter (fun e => e.content_type == some c)).filter
      (fun e => e.is_verified == true)).Pairwise (fun a b =>
        (a.is_verified = false ∧ b.is_verified = true) ∨
        (a.is_verified = b.is_verified ∧ a.id < b.id)) := by
    rw [List.pairwise_append]
    refine ⟨?_, ?_, ?_⟩
    · have hp : ((db.entries.filter (fun e => e.content_type == some c)).filter
          (fun e => e.is_verified == false)).Pairwise (fun a b => a.id < b.id) :=
        hwf.1.sublist ((List.filter_sublist _).trans (List.filter_sublist _))
      refine hp.imp_of_mem ?_
      intro a b ha hb hab
      have ha2 : a.is_verified = false := by simpa using (List.mem_filter.mp ha).2
      have hb2 : b.is_verified = false := by simpa using (List.mem_filter.mp hb).2
      exact Or.inr ⟨by rw [ha2, hb2], hab⟩
    · have hp : ((db.entries.filter (fun e => e.content_type == some c)).filter
          (fun e => e.is_verified == true)).Pairwise (fun a b => a.id < b.id) :=
        hwf.1.sublist ((List.filter_sublist _).trans (List.filter_sublist _))
      refine hp.imp_of_mem ?_
      intro a b ha hb hab
      have ha2 : a.is_verified = true := by simpa using (List.mem_filter.mp ha).2
      have hb2 : b.is_verified = true := by simpa using (List.mem_filter.mp hb).2
      exact Or.inr ⟨by rw [ha2, hb2], hab⟩
    · intro a ha b hb
      have ha2 : a.is_verified = false := by simpa using (List.mem_filter.mp ha).2
      have hb2 : b.is_verified = true := by simpa using (List.mem_filter.mp hb).2
      exact Or.inl ⟨ha2, hb2⟩
  cases verified with
  | none =>
    rw [rows_typed_none db c hc]
    exact happ
  | some b =>
    rw [rows_typed_some db c b hc]
    exact happ.sublist (List.filter_sublist _)

/-- Counterexample for C8 as claimed: with the repository's DDL, a
`content_type`-filtered listing is served from
`idx_content_type_verified` and comes back ordered by `(is_verified, id)` —
here ids `[2, 1, 3]` — which is not ascending in `id`. -/
theorem C8_counterexample :
    list_entries ⟨[⟨1, [1], "a", some "text/plain", true, none, 100⟩,
        ⟨2, [2], "b", some "text/plain", false, none, 90⟩,
        ⟨3, [3], "c", some "text/plain", true, none, 80⟩], 4⟩ 0 100
        (some "text/plain") none =
      [⟨2, [2], "b", some "text/plain", false, none, 90⟩,
       ⟨1, [1], "a", some "text/plain", true, none, 100⟩,
       ⟨3, [3], "c", some "text/plain", true, none, 80⟩] ∧
    ¬ (list_entries ⟨[⟨1, [1], "a", some "text/plain", true, none, 100⟩,
        ⟨2, [2], "b", some "text/plain", false, none, 90⟩,
        ⟨3, [3], "c", some "text/plain", true, none, 80⟩], 4⟩ 0 100
        (some "text/plain") none).Pairwise (fun a b => a.id < b.id) := by
  constructor
  · decide
  · decide

/-- C8 (amended): the listing returns exactly the persisted rows passing the
optional filters, paginated by `offset` and `limit`, but in the access
path's order, the query having no ORDER BY: under a truthy `content_type`
filter, rows arrive ordered by `(is_verified, id)` — ascending `id` only
within each verification class; with no `content_type` filter, or when an
`is_verified` filter fixes the flag, the sequence is strictly ascending in
`id`. -/
theorem C8_listing_access_path_order (db : Store) (skip limit : Nat)
    (content_type : Option String) (verified : Option Bool) (hwf : db.wf) :
    (∀ e ∈ list_entries db skip limit content_type verified,
      e ∈ db.entries ∧ entry_matches content_type verified e = true) ∧
    (list_entries db skip limit content_type verified).length ≤ limit ∧
    (∀ c, content_type = some c → c ≠ "" →
      (list_entries db skip limit content_type verified).Pairwise (fun a b =>
        (a.is_verified = false ∧ b.is_verified = true) ∨
        (a.is_verified = b.is_verified ∧ a.id < b.id))) ∧
    ((content_type = none ∨ content_type = some "" ∨ ∃ b, verified = some b) →
      (list_entries db skip limit content_type verified).Pairwise
        (fun a b => a.id < b.id)) := by
  have hsubrows : List.Sublist (list_entries db skip limit content_type verified)
      (list_entries_rows db content_type verified) :=
    (List.take_sublist _ _).trans (List.drop_sublist _ _)
  refine ⟨?_, ?_, ?_, ?_⟩
  · intro e he
    exact list_entries_rows_mem db content_type verified e (hsubrows.subset he)
  · exact List.length_take_le _ _
  · intro c hct hc
    subst hct
    exact (list_entries_rows_pairwise_typed db c verified hc hwf).sublist hsubrows
  · intro hcond
    exact hwf.1.sublist
      (hsubrows.trans (list_entries_rows_sublist db content_type verified hcond))

/-- Witness for C8: the three-row store of the counterexample, listed with
the `content_type` filter; the amended ordering properties are exercised on
it. -/
theorem C8_witness :
    (Store.wf ⟨[⟨1, [1], "a", some "text/plain", true, none, 100⟩,
      ⟨2, [2], "b", some "text/plain", false, none, 90⟩,
      ⟨3, [3], "c", some "text/plain", true, none, 80⟩], 4⟩) ∧
    ((∀ e ∈ list_entries ⟨[⟨1, [1], "a", some "text/plain", true, none, 100⟩,
        ⟨2, [2], "b", some "text/plain", false, none, 90⟩,
        ⟨3, [3], "c", some "text/plain", true, none, 80⟩], 4⟩ 0 100
        (some "text/plain") none,
      e ∈ ([⟨1, [1], "a", some "text/plain", true, none, 100⟩,
        ⟨2, [2], "b", some "text/plain", false, none, 90⟩,
        ⟨3, [3], "c", some "text/plain", true, none, 80⟩] : List DataEntry) ∧
      entry_matches (some "text/plain") none e = true) ∧
    (list_entries ⟨[⟨1, [1], "a", some "text/plain", true, none, 100⟩,
        ⟨2, [2], "b", some "text/plain", false, none, 90⟩,
        ⟨3, [3], "c", some "text/plain", true, none, 80⟩], 4⟩ 0 100
        (some "text/plain") none).length ≤ 100 ∧
    (∀ c, (some "text/plain" : Option String) = some c → c ≠ "" →
      (list_entries ⟨[⟨1, [1], "a", some "text/plain", true, none, 100⟩,
        ⟨2, [2], "b", some "text/plain", false, none, 90⟩,
        ⟨3, [3], "c", some "text/plain", true, none, 80⟩], 4⟩ 0 100
        (some "text/plain") none).Pairwise (fun a b =>
        (a.is_verified = false ∧ b.is_verified = true) ∨
        (a.is_verified = b.is_verified ∧ a.id < b.id))) ∧
    (((some "text/plain" : Option String) = none ∨
        (some "text/plain" : Option String) = some "" ∨
        ∃ b, (none : Option Bool) = some b) →
      (list_entries ⟨[⟨1, [1], "a", some "text/plain", true, none, 100⟩,
        ⟨2, [2], "b", some "text/plain", false, none, 90⟩,
        ⟨3, [3], "c", some "text/plain", true, none, 80⟩], 4⟩ 0 100
        (some "text/plain") none).Pairwise (fun a b => a.id < b.id))) :=
  ⟨by decide,
   C8_listing_access_path_order ⟨[⟨1, [1], "a", some "text/plain", true, none, 100⟩,
     ⟨2, [2], "b", some "text/plain", false, none, 90⟩,
     ⟨3, [3], "c", some "text/plain", true, none, 80⟩], 4⟩ 0 100
     (some "text/plain") none (by decide)⟩

/-- C9: deduplication is byte-exact, not representation-based.  The compact
JSON payload `\x7b"a":1\x7d` and its own pretty-printed form are distinct
byte sequences that normalize to the same stored `content` string, yet their
hashes differ (BLAKE3 collision resistance, as the hypothesis on `ghash`), so
submitting both persists two separate entries with equal `content` — only
`content_hash` carries a uniqueness constraint. -/
theorem C9_byte_exact_dedup (ghash : List Nat → List Nat) (detect : List Nat → String)
    (frepr : String → String)
    (hne : ghash [123, 34, 97, 34, 58, 49, 125] ≠
      ghash [123, 10, 32, 32, 34, 97, 34, 58, 32, 49, 10, 125]) :
    ([123, 34, 97, 34, 58, 49, 125] : List Nat) ≠
      [123, 10, 32, 32, 34, 97, 34, 58, 32, 49, 10, 125] ∧
    normalize_content frepr [123, 34, 97, 34, 58, 49, 125] =
      normalize_content frepr [123, 10, 32, 32, 34, 97, 34, 58, 32, 49, 10, 125] ∧
    ∃ e1 db1 e2 db2,
      create_data_entry ghash detect frepr Store.empty [123, 34, 97, 34, 58, 49, 125]
        none none none true 100 = .ok (e1, db1) ∧
      create_data_entry ghash detect frepr db1
        [123, 10, 32, 32, 34, 97, 34, 58, 32, 49, 10, 125]
        none none none true 100 = .ok (e2, db2) ∧
      e1.content = e2.content ∧
      e1.content_hash ≠ e2.content_hash ∧
      db2.entries = [e1, e2] := by
  have hd1 : utf8Decode [123, 34, 97, 34, 58, 49, 125] = some "\x7b\"a\":1\x7d" := by
    decide
  have hd2 : utf8Decode [123, 10, 32, 32, 34, 97, 34, 58, 32, 49, 10, 125] =
      some "\x7b\n  \"a\": 1\n\x7d" := by decide
  have hv1 : jsonLoads "\x7b\"a\":1\x7d" = some (J.jobj [("a", J.jint 1)]) := by rfl
  have hv2 : jsonLoads "\x7b\n  \"a\": 1\n\x7d" = some (J.jobj [("a", J.jint 1)]) := by
    rfl
  have hnorm : normalize_content frepr [123, 34, 97, 34, 58, 49, 125] =
      normalize_content frepr [123, 10, 32, 32, 34, 97, 34, 58, 32, 49, 10, 125] := by
    simp [normalize_content, hd1, hd2, hv1, hv2]
  refine ⟨by decide, hnorm, ?_⟩
  have h1 : query_first_hash Store.empty (ghash [123, 34, 97, 34, 58, 49, 125]) =
      none := rfl
  have e1def := create_data_entry_of_not_found ghash detect frepr Store.empty
    [123, 34, 97, 34, 58, 49, 125] none none none true 100 h1
  have h2 : query_first_hash ⟨Store.empty.entries ++ [new_entry_row ghash detect frepr
      Store.empty [123, 34, 97, 34, 58, 49, 125] none none true 100],
      Store.empty.nextId + 1⟩
      (ghash [123, 10, 32, 32, 34, 97, 34, 58, 32, 49, 10, 125]) = none := by
    have hb : ((new_entry_row ghash detect frepr Store.empty
        [123, 34, 97, 34, 58, 49, 125]
        none none true 100).content_hash ==
        ghash [123, 10, 32, 32, 34, 97, 34, 58, 32, 49, 10, 125]) = false := by
      simp only [new_entry_row_content_hash, beq_eq_false_iff_ne, ne_eq]
      exact hne
    unfold query_first_hash
    have hent : (⟨Store.empty.entries ++ [new_entry_row ghash detect frepr Store.empty
        [123, 34, 97, 34, 58, 49, 125] none none true 100],
        Store.empty.nextId + 1⟩ : Store).entries =
        [new_entry_row ghash detect frepr Store.empty [123, 34, 97, 34, 58, 49, 125]
          none none true 100] := rfl
    rw [hent]
    simp only [List.find?, hb]
  have e2def := create_data_entry_of_not_found ghash detect frepr
    ⟨Store.empty.entries ++ [new_entry_row ghash detect frepr Store.empty
      [123, 34, 97, 34, 58, 49, 125] none none true 100], Store.empty.nextId + 1⟩
    [123, 10, 32, 32, 34, 97, 34, 58, 32, 49, 10, 125] none none none true 100 h2
  refine ⟨_, _, _, _, e1def, e2def, ?_, ?_, ?_⟩
  · show normalize_content frepr [123, 34, 97, 34, 58, 49, 125] =
      normalize_content frepr [123, 10, 32, 32, 34, 97, 34, 58, 32, 49, 10, 125]
    exact hnorm
  · exact hne
  · rfl

/-- Witness for C9: the hash-distinctness hypothesis instantiated with an
injective digest; the float oracle is the identity (the payloads carry no
floats). -/
theorem C9_witness :
    ((fun l => l) [123, 34, 97, 34, 58, 49, 125] ≠
      (fun l => l) [123, 10, 32, 32, 34, 97, 34, 58, 32, 49, 10, 125]) ∧
    (([123, 34, 97, 34, 58, 49, 125] : List Nat) ≠
      [123, 10, 32, 32, 34, 97, 34, 58, 32, 49, 10, 125] ∧
    normalize_content (fun x => x) [123, 34, 97, 34, 58, 49, 125] =
      normalize_content (fun x => x)
        [123, 10, 32, 32, 34, 97, 34, 58, 32, 49, 10, 125] ∧
    ∃ e1 db1 e2 db2,
      create_data_entry (fun l => l) (fun _ => "application/json") (fun x => x)
        Store.empty
        [123, 34, 97, 34, 58, 49, 125] none none none true 100 = .ok (e1, db1) ∧
      create_data_entry (fun l => l) (fun _ => "application/json") (fun x => x) db1
        [123, 10, 32, 32, 34, 97, 34, 58, 32, 49, 10, 125]
        none none none true 100 = .ok (e2, db2) ∧
      e1.content = e2.content ∧
      e1.content_hash ≠ e2.content_hash ∧
      db2.entries = [e1, e2]) :=
  ⟨by decide,
   C9_byte_exact_dedup (fun l => l) (fun _ => "application/json") (fun x => x)
     (by decide)⟩
